import Mathlib

/-!
# simplehttp: buffered HTTP responses and DNS-aware dialing

A shallow embedding of the Go package `simplehttp` (files `dns.go` and
`simplehttp.go`).

* Go values `(x, err)` are pairs whose error component is an `Option GoError`
  (`none` is the nil error); nil pointers and nil slices are `none`.
* Calls into the standard library and into the DNS client library are calls to
  the fields of an environment `Env`.  Every such call is appended to a history
  of events, and the environment answers as a function of the history so far, so
  that two successive calls with the same arguments may be answered differently.
* Package-level variables and the transports they point to live in `State`.
* Function literals are closures in defunctionalised form: a constructor holding
  the captured variables, and a definition for the body.
-/

namespace simplehttp

/-! ## Go runtime values -/

/-- Go error value. The nil error is `none : Option GoError`. -/
structure GoError where
  msg : String
deriving DecidableEq, Repr

/-- Go slice: `none` is the nil slice, `some l` a non-nil slice holding `l`. -/
abbrev Slice (α : Type) := Option (List α)

/-- Built-in `append(s, x)` of one element. -/
def Slice.append {α : Type} (s : Slice α) (x : α) : Slice α :=
  match s with
  | none => some [x]
  | some l => some (l ++ [x])

/-- Index expression `s[i]`; `none` stands for the index being out of range. -/
def Slice.index {α : Type} (s : Slice α) (i : Nat) : Option α :=
  match s with
  | none => none
  | some l => l.get? i

/-- Built-in `len(s)`. -/
def Slice.len {α : Type} (s : Slice α) : Nat :=
  match s with
  | none => 0
  | some l => l.length

/-- How a call ends: it returns a value, or the goroutine panics. -/
inductive Outcome (α : Type) where
  | ret (a : α)
  | panic (msg : String)
deriving DecidableEq, Repr

/-- Constant `time.Second`, a `time.Duration` counted in nanoseconds. -/
def Second : Nat := 1000000000

/-- A `context.Context`, reduced to the timeout it carries. -/
structure Context where
  timeout : Option Nat
deriving DecidableEq, Repr

/-- Value of `context.Background()`. -/
def Context.Background : Context := { timeout := none }

/-- Value of `context.WithTimeout(parent, d)`: the shorter of the two timeouts. -/
def Context.WithTimeout (parent : Context) (d : Nat) : Context :=
  match parent.timeout with
  | none => { timeout := some d }
  | some p => { timeout := some (min p d) }

/-! ## DNS messages -/

/-- A `net.IP`: a slice of bytes. -/
abbrev IP := List Nat

/-- Constant `dns.TypeA`. -/
def TypeA : Nat := 1

/-- Constant `dns.ClassINET`. -/
def ClassINET : Nat := 1

/-- A `dns.Question`. -/
structure Question where
  Name : String
  Qtype : Nat
  Qclass : Nat
deriving DecidableEq, Repr

/-- A `dns.RR` value by dynamic type: `*dns.A`, or a record of another type. -/
inductive RR where
  | A (name : String) (ttl : Nat) (a : IP)
  | other (rrtype : Nat) (name : String) (ttl : Nat)
deriving DecidableEq, Repr

/-- A `dns.Msg`, reduced to the fields the package sets or reads. -/
structure Msg where
  RecursionDesired : Bool
  Question : List Question
  Answer : List RR
deriving DecidableEq, Repr

/-- Value of `new(dns.Msg)`. -/
def Msg.new : Msg := { RecursionDesired := false, Question := [], Answer := [] }

/-- Method `(*dns.Msg).SetQuestion(z, t)`. -/
def Msg.SetQuestion (m : Msg) (z : String) (t : Nat) : Msg :=
  { m with RecursionDesired := true, Question := [{ Name := z, Qtype := t, Qclass := ClassINET }] }

/-! ## Dialers, transports, clients -/

/-- Function literals of type `func(ctx, network, address) (net.Conn, error)`
stored in a `net.Resolver`: the one of `SetCustomDNS`, capturing `dnsAddr`. -/
inductive ResolverDial where
  | SetCustomDNS_func1 (dnsAddr : String)
deriving DecidableEq, Repr

/-- A `net.Resolver`. -/
structure Resolver where
  PreferGo : Bool
  Dial : Option ResolverDial
deriving DecidableEq, Repr

/-- A `net.Dialer`; a nil `Resolver` field selects the system resolver. -/
structure Dialer where
  Timeout : Nat
  KeepAlive : Nat
  Resolver : Option Resolver
deriving DecidableEq, Repr

/-- Values of type `func(ctx, network, addr) (net.Conn, error)` stored in a
transport: the method value `(&net.Dialer{...}).DialContext`, or the function
literal of `NewClientWithDNS`, capturing `dnsAddr` and `domain`. -/
inductive DialFunc where
  | method (d : Dialer)
  | NewClientWithDNS_func1 (dnsAddr domain : String)
deriving DecidableEq, Repr

/-- An `http.Transport`. -/
structure Transport where
  DialContext : Option DialFunc
  DisableKeepAlives : Bool
deriving DecidableEq, Repr

/-- An `http.Client`; `Transport` is a pointer into `State.transports`. -/
structure Client where
  Transport : Option Nat
  Timeout : Nat
deriving DecidableEq, Repr

/-- A `net.Conn`. -/
structure Conn where
  id : Nat
deriving DecidableEq, Repr

/-! ## Streams and HTTP messages -/

/-- A body stream handed out by the HTTP transport: the data its successive
`Read` calls deliver, how it ends after them (`none` is `io.EOF`, `some e` a
read error), and whether `Close` has been called on it. -/
structure Stream where
  chunks : List (List Nat)
  fail : Option GoError
  closed : Bool
deriving DecidableEq, Repr

/-- A `bytes.Buffer`: its unread bytes. -/
structure Buffer where
  unread : List Nat
deriving DecidableEq, Repr

/-- Method `(*bytes.Buffer).Write`. -/
def Buffer.Write (bb : Buffer) (p : List Nat) : Buffer := { unread := bb.unread ++ p }

/-- An `io.ReadCloser` by dynamic type: a transport stream, or the result of
`io.NopCloser` on a `*bytes.Buffer`. -/
inductive ReadCloser where
  | stream (s : Stream)
  | NopCloser (bb : Buffer)
deriving DecidableEq, Repr

/-- Method `Close`: marks a transport stream closed, does nothing on a
`NopCloser`. -/
def ReadCloser.Close : ReadCloser → ReadCloser
  | ReadCloser.stream s => ReadCloser.stream { s with closed := true }
  | ReadCloser.NopCloser bb => ReadCloser.NopCloser bb

/-- What reading a reader to its end delivers: the data of the successive
`Read` calls and the error ending them (`none` is `io.EOF`). -/
def ReadCloser.pending : ReadCloser → List (List Nat) × Option GoError
  | ReadCloser.stream s => (s.chunks, s.fail)
  | ReadCloser.NopCloser bb => ([bb.unread], none)

/-- The reader once everything pending has been read from it. -/
def ReadCloser.drained : ReadCloser → ReadCloser
  | ReadCloser.stream s => ReadCloser.stream { s with chunks := [] }
  | ReadCloser.NopCloser _ => ReadCloser.NopCloser { unread := [] }

/-- The copy loop of `io.Copy`: each chunk read is written to `dst` and counted. -/
def ioCopy.loop : List (List Nat) → Buffer → Int → Buffer × Int
  | [], dst, written => (dst, written)
  | c :: cs, dst, written => ioCopy.loop cs (dst.Write c) (written + c.length)

/-- Function `io.Copy(dst, src)`: copies until `src` ends; `io.EOF` is not
reported as an error. Gives `(written, err)`, then `dst` and `src` afterwards. -/
def ioCopy (dst : Buffer) (src : ReadCloser) : (Int × Option GoError) × Buffer × ReadCloser :=
  let (dst1, written) := ioCopy.loop src.pending.1 dst 0
  ((written, src.pending.2), dst1, src.drained)

/-- Function `io.ReadAll(r)`: reads until `r` ends; `io.EOF` is not reported as
an error. Gives `(b, err)`, then `r` afterwards. -/
def ioReadAll (r : ReadCloser) : (List Nat × Option GoError) × ReadCloser :=
  ((r.pending.1.flatten, r.pending.2), r.drained)

/-- An `http.Request`. -/
structure Request where
  Method : String
  URL : String
deriving DecidableEq, Repr

/-- An `http.Response`. -/
structure HttpResponse where
  StatusCode : Int
  Header : List (String × List String)
  ContentLength : Int
  Body : ReadCloser
deriving DecidableEq, Repr

/-- Type `Response` of the package: it embeds an `http.Response`. -/
structure Response extends HttpResponse
deriving DecidableEq, Repr

/-- Variable `http.DefaultClient`, the zero client. -/
def DefaultClient : Client := { Transport := none, Timeout := 0 }

/-! ## The environment -/

/-- Calls that leave the package. -/
inductive Event where
  | lookupHost (ctx : Context) (host : String)
  | exchange (ctx : Context) (m : Msg) (server : String)
  | dial (d : Dialer) (ctx : Context) (network address : String)
deriving DecidableEq, Repr

/-- The library functions the package calls.
`ParseIP` is `net.ParseIP`, `Fqdn` is `dns.Fqdn`, `IPString` is
`net.IP.String`; `LookupHost` is `net.DefaultResolver.LookupHost`,
`ExchangeContext` is `dnsClient.ExchangeContext` (its round-trip time is
dropped), `DialContext` is `(*net.Dialer).DialContext`; these three see the
history of calls made before them. `ClientDo` is `(*http.Client).Do`. -/
structure Env where
  ParseIP : String → Option IP
  Fqdn : String → String
  IPString : IP → String
  LookupHost : List Event → Context → String → Slice String × Option GoError
  ExchangeContext : List Event → Context → Msg → String → Option Msg × Option GoError
  DialContext : List Event → Dialer → Context → String → String → Option Conn × Option GoError
  ClientDo : Client → Request → Option HttpResponse × Option GoError

/-- Function `net.JoinHostPort` of the standard library: a host holding a colon
is put in square brackets. -/
def JoinHostPort (host port : String) : String :=
  if host.toList.contains ':' then "[" ++ host ++ "]:" ++ port
  else host ++ ":" ++ port

/-! ## dns.go -/

/-- The loop `for _, record := range inA.Answer` of `ResolveIP`: the string of
the address of every record of dynamic type `*dns.A` is appended to `addrs`. -/
def ResolveIP.rangeAnswer (env : Env) : List RR → Slice String → Slice String
  | [], addrs => addrs
  | RR.A _ _ a :: rest, addrs => ResolveIP.rangeAnswer env rest (addrs.append (env.IPString a))
  | RR.other _ _ _ :: rest, addrs => ResolveIP.rangeAnswer env rest addrs

/-- Function `ResolveIP(dnsAddr, domain)`, run after the calls of `h`. -/
def ResolveIP (env : Env) (dnsAddr domain : String) (h : List Event) :
    Outcome (Slice String × Option GoError) × List Event :=
  let ctx := Context.WithTimeout Context.Background (5 * Second)
  if dnsAddr = "" then
    (Outcome.ret (env.LookupHost h ctx domain), h ++ [Event.lookupHost ctx domain])
  else
    let addrs : Slice String := some []
    match env.ParseIP domain with
    | some _ => (Outcome.ret (addrs.append domain, none), h)
    | none =>
      let messageA := Msg.new.SetQuestion (env.Fqdn domain) TypeA
      let h1 := h ++ [Event.exchange ctx messageA dnsAddr]
      match env.ExchangeContext h ctx messageA dnsAddr with
      | (_, some err) => (Outcome.ret (none, some err), h1)
      | (none, none) => (Outcome.panic "invalid memory address or nil pointer dereference", h1)
      | (some inA, none) => (Outcome.ret (ResolveIP.rangeAnswer env inA.Answer addrs, none), h1)

/-- Body of the function literal `dialContext` of `NewClientWithDNS`, with the
captured `dnsAddr` and `domain`, run after the calls of `h`. -/
def NewClientWithDNS.dialContext (env : Env) (dnsAddr domain : String)
    (ctx : Context) (network _addr : String) (h : List Event) :
    Outcome (Option Conn × Option GoError) × List Event :=
  let dialer : Dialer := { Timeout := 5 * Second, KeepAlive := 30 * Second, Resolver := none }
  match ResolveIP env dnsAddr domain h with
  | (Outcome.panic m, h1) => (Outcome.panic m, h1)
  | (Outcome.ret (_, some err), h1) => (Outcome.ret (none, some err), h1)
  | (Outcome.ret (addrs, none), h1) =>
    match addrs.index 0 with
    | none => (Outcome.panic "index out of range [0] with length 0", h1)
    | some a0 =>
      let target := JoinHostPort a0 "80"
      (Outcome.ret (env.DialContext h1 dialer ctx network target),
        h1 ++ [Event.dial dialer ctx network target])

/-- Package-level variables `dialContext` and `defaultTransport`, and the
`http.Transport` objects allocated so far; `defaultTransport` is a pointer, an
index into `transports`. -/
structure State where
  dialContext : DialFunc
  defaultTransport : Nat
  transports : List Transport
deriving DecidableEq, Repr

/-- The value a pointer to a transport points to. -/
def State.deref (s : State) (p : Nat) : Option Transport := s.transports.get? p

/-- Initial values of the package-level variables of `simplehttp.go`. -/
def State.init : State :=
  let dialContext := DialFunc.method
    { Timeout := 5 * Second, KeepAlive := 30 * Second, Resolver := none }
  { dialContext := dialContext
    defaultTransport := 0
    transports := [{ DialContext := some dialContext, DisableKeepAlives := true }] }

/-- Body of the function literal stored as `Dial` of the resolver that
`SetCustomDNS` builds, with the captured `dnsAddr`. -/
def SetCustomDNS.dial (env : Env) (dnsAddr : String)
    (ctx : Context) (network _address : String) (h : List Event) :
    (Option Conn × Option GoError) × List Event :=
  let d : Dialer := { Timeout := 5 * Second, KeepAlive := 0, Resolver := none }
  (env.DialContext h d ctx network dnsAddr, h ++ [Event.dial d ctx network dnsAddr])

/-- Function `SetCustomDNS(dnsAddr)`. -/
def SetCustomDNS (dnsAddr : String) (s : State) : State :=
  if dnsAddr = "" then
    let dialContext := DialFunc.method
      { Timeout := 5 * Second, KeepAlive := 30 * Second, Resolver := none }
    { dialContext := dialContext
      defaultTransport := s.transports.length
      transports := s.transports ++ [{ DialContext := some dialContext, DisableKeepAlives := true }] }
  else
    let dialContext := DialFunc.method
      { Timeout := 5 * Second
        KeepAlive := 30 * Second
        Resolver := some { PreferGo := true, Dial := some (ResolverDial.SetCustomDNS_func1 dnsAddr) } }
    { dialContext := dialContext
      defaultTransport := s.transports.length
      transports := s.transports ++ [{ DialContext := some dialContext, DisableKeepAlives := true }] }

/-- Function `NewClientWithDNS(dnsAddr, domain)`. -/
def NewClientWithDNS (dnsAddr domain : String) (s : State) : Client × State :=
  let dialContext := DialFunc.NewClientWithDNS_func1 dnsAddr domain
  let httpTransport := s.transports.length
  ({ Transport := some httpTransport, Timeout := 5 * Second },
    { s with transports := s.transports ++ [{ DialContext := some dialContext, DisableKeepAlives := true }] })

/-- Calling a dial function value. -/
def DialFunc.call (env : Env) (f : DialFunc) (ctx : Context) (network addr : String)
    (h : List Event) : Outcome (Option Conn × Option GoError) × List Event :=
  match f with
  | DialFunc.method d =>
    (Outcome.ret (env.DialContext h d ctx network addr), h ++ [Event.dial d ctx network addr])
  | DialFunc.NewClientWithDNS_func1 dnsAddr domain =>
    NewClientWithDNS.dialContext env dnsAddr domain ctx network addr h

/-- Calling a resolver dial function value. -/
def ResolverDial.call (env : Env) (f : ResolverDial) (ctx : Context) (network address : String)
    (h : List Event) : (Option Conn × Option GoError) × List Event :=
  match f with
  | ResolverDial.SetCustomDNS_func1 dnsAddr => SetCustomDNS.dial env dnsAddr ctx network address h

/-- The dial function of the transport a client points to. -/
def Client.dialFunc (s : State) (c : Client) : Option DialFunc :=
  (c.Transport.bind s.deref).bind Transport.DialContext

/-! ## simplehttp.go -/

/-- Function `NewClient()`. -/
def NewClient (s : State) : Client :=
  { Transport := some s.defaultTransport, Timeout := 5 * Second }

/-- What a call of `Do` leaves behind: how it ended, and the state, at that
moment, of the body of the response `client.Do` gave (`none` if it gave no
response). -/
structure DoResult where
  out : Outcome (Option Response × Option GoError)
  body : Option ReadCloser
deriving DecidableEq, Repr

/-- Function `Do(client, req)`. The deferred `resp.Body.Close()` has its
receiver evaluated at the `defer` statement, so it closes the body `client.Do`
gave, after the return values are set. -/
def Do (env : Env) (client : Option Client) (req : Request) : DoResult :=
  let client := match client with
    | none => DefaultClient
    | some c => c
  match env.ClientDo client req with
  | (resp, some err) => { out := Outcome.ret (none, some err), body := resp.map HttpResponse.Body }
  | (none, none) =>
    { out := Outcome.panic "invalid memory address or nil pointer dereference", body := none }
  | (some resp, none) =>
    let deferred := resp.Body
    let bb : Buffer := { unread := [] }
    match ioCopy bb deferred with
    | ((_, some err), _, body1) =>
      { out := Outcome.ret (none, some err), body := some body1.Close }
    | ((n, none), bb1, body1) =>
      let resp1 := { resp with ContentLength := n, Body := ReadCloser.NopCloser bb1 }
      { out := Outcome.ret (some { toHttpResponse := resp1 }, none), body := some body1.Close }

/-- Method `(*Response).Bytes()`: gives `(b, err)`, then the response afterwards. -/
def Response.Bytes (r : Response) : (List Nat × Option GoError) × Response :=
  match ioReadAll r.Body with
  | ((b, err), body1) => ((b, err), { r with Body := body1.Close })

/-- The response after `k` calls of `Bytes`. -/
def Response.afterBytes : Nat → Response → Response
  | 0, r => r
  | k + 1, r => Response.afterBytes k r.Bytes.2

/-! ## Vocabulary of the statements -/

/-- The context `ResolveIP` hands to the resolvers: five seconds from the call. -/
def ResolveIP.ctx : Context := Context.WithTimeout Context.Background (5 * Second)

/-- The query `ResolveIP` sends for `domain`: one question, type A. -/
def ResolveIP.messageA (env : Env) (domain : String) : Msg :=
  Msg.new.SetQuestion (env.Fqdn domain) TypeA

/-- The address text of an A-record, `none` for a record of another type. -/
def RR.addrText (env : Env) : RR → Option String
  | RR.A _ _ a => some (env.IPString a)
  | RR.other _ _ _ => none

/-- The dialer the dial function of `NewClientWithDNS` dials with. -/
def NewClientWithDNS.dialer : Dialer :=
  { Timeout := 5 * Second, KeepAlive := 30 * Second, Resolver := none }

/-- A dial through the transport of client `c`: the call of its dial
function, `none` if `c` has no transport with a dial function. -/
def Client.dial (env : Env) (s : State) (c : Client) (ctx : Context) (network addr : String)
    (h : List Event) : Option (Outcome (Option Conn × Option GoError) × List Event) :=
  (c.dialFunc s).map (fun f => f.call env ctx network addr h)

/-- The client `Do` sends the request with: `http.DefaultClient` for a nil
`client`. -/
def Do.client (client : Option Client) : Client := client.getD DefaultClient

/-- The error `io.Copy` returns when copying body `b` to an empty buffer. -/
def copyErr (b : ReadCloser) : Option GoError := (ioCopy { unread := [] } b).1.2

/-- All the bytes a reader delivers when read to its end. -/
def ReadCloser.bytes (b : ReadCloser) : List Nat := b.pending.1.flatten

/-- The state after a sequence of `SetCustomDNS` calls, first call first. -/
def SetCustomDNS.run (calls : List String) (s : State) : State :=
  calls.foldl (fun st dnsAddr => SetCustomDNS dnsAddr st) s

/-- The dial function expected after `SetCustomDNS(dnsAddr)`, stated apart from
the code: a dialer with a 5s connect timeout and a 30s keep-alive, plain for
the empty `dnsAddr`, otherwise with a resolver whose connections all go to
`dnsAddr`. -/
def SetCustomDNS.installed (dnsAddr : String) : DialFunc :=
  DialFunc.method
    { Timeout := 5000000000
      KeepAlive := 30000000000
      Resolver :=
        if dnsAddr = "" then none
        else some { PreferGo := true, Dial := some (ResolverDial.SetCustomDNS_func1 dnsAddr) } }

/-! ## A sample environment

A concrete environment on which the definitions above can be evaluated. Its
library functions handle IPv4 only. Its DNS server `127.0.0.1:5353` knows a few
names, its DNS server `192.0.2.1:53` never answers. -/

namespace Sample

/-- The fields of a dotted string. -/
def splitDots : List Char → List (List Char)
  | [] => [[]]
  | c :: cs =>
    match splitDots cs with
    | [] => [[c]]
    | f :: fs => if c = '.' then [] :: f :: fs else (c :: f) :: fs

/-- One decimal field of an IPv4 literal: one to three digits, no leading
zero, at most 255. -/
def field (cs : List Char) : Option Nat :=
  if cs.length = 0 ∨ 3 < cs.length ∨ cs.all Char.isDigit = false then none
  else if 1 < cs.length ∧ cs.head? = some '0' then none
  else
    let v := cs.foldl (fun n c => 10 * n + (c.toNat - 48)) 0
    if v ≤ 255 then some v else none

/-- Parsing of dotted-decimal IPv4 literals, to the 16-byte form. -/
def ParseIP (s : String) : Option IP :=
  match (splitDots s.toList).map field with
  | [some a, some b, some c, some d] => some [0, 0, 0, 0, 0, 0, 0, 0, 0, 0, 255, 255, a, b, c, d]
  | _ => none

/-- Dotted-decimal text of an IPv4 address in 4-byte or 16-byte form. -/
def IPString (ip : IP) : String :=
  match ip with
  | [a, b, c, d] => toString a ++ "." ++ toString b ++ "." ++ toString c ++ "." ++ toString d
  | [0, 0, 0, 0, 0, 0, 0, 0, 0, 0, 255, 255, a, b, c, d] =>
    toString a ++ "." ++ toString b ++ "." ++ toString c ++ "." ++ toString d
  | [] => "<nil>"
  | _ => "?"

/-- A name with a final dot added unless it has one. -/
def Fqdn (s : String) : String :=
  if s.toList.getLast? = some '.' then s else s ++ "."

/-- The system resolver: IP literals resolve to themselves, `example.com` to
one address, every other name fails. -/
def LookupHost (_h : List Event) (_ctx : Context) (host : String) :
    Slice String × Option GoError :=
  if (ParseIP host).isSome then (some [host], none)
  else if host = "example.com" then (some ["93.184.216.34"], none)
  else (none, some { msg := "lookup " ++ host ++ ": no such host" })

/-- The answer section the server `127.0.0.1:5353` gives for a name. The
answer for `rotate.example.` changes with the number of calls made before. -/
def answers (h : List Event) (name : String) : List RR :=
  if name = "example.com." then [RR.A name 300 [93, 184, 216, 34]]
  else if name = "mixed.example." then
    [RR.other 5 name 60, RR.A name 60 [10, 0, 0, 1], RR.other 28 name 60, RR.A name 60 [10, 0, 0, 2]]
  else if name = "rotate.example." then [RR.A name 1 [10, 1, 0, h.length]]
  else []

/-- The DNS client: `127.0.0.1:5353` answers the first question of the query,
any other server times out. -/
def ExchangeContext (h : List Event) (_ctx : Context) (m : Msg) (server : String) :
    Option Msg × Option GoError :=
  if server = "127.0.0.1:5353" then
    match m.Question with
    | q :: _ => (some { m with Answer := answers h q.Name }, none)
    | [] => (some m, none)
  else (none, some { msg := "read udp " ++ server ++ ": i/o timeout" })

/-- The dialer: every dial succeeds, except to `192.0.2.1:80`. -/
def DialContext (h : List Event) (_d : Dialer) (_ctx : Context) (_network address : String) :
    Option Conn × Option GoError :=
  if address = "192.0.2.1:80" then (none, some { msg := "connect: connection refused" })
  else (some { id := h.length }, none)

/-- The HTTP client: `/hello` is served in two chunks with no declared length,
`/broken` breaks off after one chunk, `/empty` has an empty body, any other
URL cannot be reached. -/
def ClientDo (_c : Client) (req : Request) : Option HttpResponse × Option GoError :=
  if req.URL = "http://example.com/hello" then
    (some { StatusCode := 200, Header := [], ContentLength := -1,
            Body := ReadCloser.stream
              { chunks := [[104, 101], [108, 108, 111]], fail := none, closed := false } }, none)
  else if req.URL = "http://example.com/broken" then
    (some { StatusCode := 200, Header := [], ContentLength := 5,
            Body := ReadCloser.stream
              { chunks := [[104, 101]], fail := some { msg := "unexpected EOF" }, closed := false } },
      none)
  else if req.URL = "http://example.com/empty" then
    (some { StatusCode := 204, Header := [], ContentLength := 0,
            Body := ReadCloser.stream { chunks := [], fail := none, closed := false } }, none)
  else (none, some { msg := "dial tcp: connection refused" })

/-- The sample environment. -/
def env : Env :=
  { ParseIP := ParseIP, Fqdn := Fqdn, IPString := IPString, LookupHost := LookupHost,
    ExchangeContext := ExchangeContext, DialContext := DialContext, ClientDo := ClientDo }

/-- The exchange `ResolveIP` makes with `127.0.0.1:5353` for `rotate.example`. -/
def rotateQuery : Event :=
  Event.exchange ResolveIP.ctx (ResolveIP.messageA env "rotate.example") "127.0.0.1:5353"

/-- The request for `/hello`. -/
def getHello : Request := { Method := "GET", URL := "http://example.com/hello" }

/-- The request for `/broken`. -/
def getBroken : Request := { Method := "GET", URL := "http://example.com/broken" }

/-- The response `Do` returns for `/hello`: the five bytes of `hello`, buffered. -/
def hello : Response :=
  { StatusCode := 200, Header := [], ContentLength := 5,
    Body := ReadCloser.NopCloser { unread := [104, 101, 108, 108, 111] } }

end Sample

/-! ## Lemmas -/

theorem rangeAnswer_some (env : Env) (ans : List RR) (l : List String) :
    ResolveIP.rangeAnswer env ans (some l) = some (l ++ ans.filterMap (RR.addrText env)) := by
  induction ans generalizing l with
  | nil => simp [ResolveIP.rangeAnswer]
  | cons r rest ih =>
    cases r with
    | A name ttl a =>
      simp [ResolveIP.rangeAnswer, Slice.append, ih, RR.addrText, List.filterMap_cons]
    | other t name ttl =>
      simp [ResolveIP.rangeAnswer, ih, RR.addrText, List.filterMap_cons]

theorem ResolveIP_system (env : Env) (domain : String) (h : List Event) :
    ResolveIP env "" domain h
      = (Outcome.ret (env.LookupHost h ResolveIP.ctx domain),
          h ++ [Event.lookupHost ResolveIP.ctx domain]) := by
  simp [ResolveIP, ResolveIP.ctx]

theorem ResolveIP_literal (env : Env) (dnsAddr domain : String) (h : List Event)
    (hAddr : dnsAddr ≠ "") (hIP : (env.ParseIP domain).isSome = true) :
    ResolveIP env dnsAddr domain h = (Outcome.ret (some [domain], none), h) := by
  obtain ⟨ip, hip⟩ := Option.isSome_iff_exists.mp hIP
  simp [ResolveIP, hAddr, hip, Slice.append]

theorem ResolveIP_exchange_err (env : Env) (dnsAddr domain : String) (h : List Event)
    (m : Option Msg) (err : GoError)
    (hAddr : dnsAddr ≠ "") (hIP : env.ParseIP domain = none)
    (hEx : env.ExchangeContext h ResolveIP.ctx (ResolveIP.messageA env domain) dnsAddr
      = (m, some err)) :
    ResolveIP env dnsAddr domain h
      = (Outcome.ret (none, some err),
          h ++ [Event.exchange ResolveIP.ctx (ResolveIP.messageA env domain) dnsAddr]) := by
  simp only [ResolveIP.ctx, ResolveIP.messageA] at hEx
  simp [ResolveIP, hAddr, hIP, hEx, ResolveIP.ctx, ResolveIP.messageA]

theorem ResolveIP_exchange_ok (env : Env) (dnsAddr domain : String) (h : List Event)
    (inA : Msg)
    (hAddr : dnsAddr ≠ "") (hIP : env.ParseIP domain = none)
    (hEx : env.ExchangeContext h ResolveIP.ctx (ResolveIP.messageA env domain) dnsAddr
      = (some inA, none)) :
    ResolveIP env dnsAddr domain h
      = (Outcome.ret (some (inA.Answer.filterMap (RR.addrText env)), none),
          h ++ [Event.exchange ResolveIP.ctx (ResolveIP.messageA env domain) dnsAddr]) := by
  simp only [ResolveIP.ctx, ResolveIP.messageA] at hEx
  simp [ResolveIP, hAddr, hIP, hEx, ResolveIP.ctx, ResolveIP.messageA, rangeAnswer_some]

theorem NewClientWithDNS_dialFunc (dnsAddr domain : String) (s : State) :
    (NewClientWithDNS dnsAddr domain s).1.dialFunc (NewClientWithDNS dnsAddr domain s).2
      = some (DialFunc.NewClientWithDNS_func1 dnsAddr domain) := by
  simp [NewClientWithDNS, Client.dialFunc, State.deref]

theorem NewClientWithDNS_dial_eq (env : Env) (dnsAddr domain : String) (s : State)
    (ctx : Context) (network addr : String) (h : List Event) :
    Client.dial env (NewClientWithDNS dnsAddr domain s).2 (NewClientWithDNS dnsAddr domain s).1
        ctx network addr h
      = some (NewClientWithDNS.dialContext env dnsAddr domain ctx network addr h) := by
  simp [Client.dial, NewClientWithDNS_dialFunc, DialFunc.call]

theorem dialContext_of_addrs (env : Env) (dnsAddr domain : String)
    (ctx : Context) (network addr : String) (h h1 : List Event) (a0 : String)
    (rest : List String)
    (hR : ResolveIP env dnsAddr domain h = (Outcome.ret (some (a0 :: rest), none), h1)) :
    NewClientWithDNS.dialContext env dnsAddr domain ctx network addr h
      = (Outcome.ret (env.DialContext h1 NewClientWithDNS.dialer ctx network
            (JoinHostPort a0 "80")),
          h1 ++ [Event.dial NewClientWithDNS.dialer ctx network (JoinHostPort a0 "80")]) := by
  simp [NewClientWithDNS.dialContext, hR, Slice.index, NewClientWithDNS.dialer]

theorem dialContext_of_err (env : Env) (dnsAddr domain : String)
    (ctx : Context) (network addr : String) (h h1 : List Event) (l : Slice String)
    (err : GoError)
    (hR : ResolveIP env dnsAddr domain h = (Outcome.ret (l, some err), h1)) :
    NewClientWithDNS.dialContext env dnsAddr domain ctx network addr h
      = (Outcome.ret (none, some err), h1) := by
  simp [NewClientWithDNS.dialContext, hR]

/-- A nil or empty list with no error makes the dial function panic at
`addrs[0]`, whatever the environment. -/
theorem dialContext_of_no_addrs (env : Env) (dnsAddr domain : String)
    (ctx : Context) (network addr : String) (h h1 : List Event) (l : Slice String)
    (hl : l.len = 0)
    (hR : ResolveIP env dnsAddr domain h = (Outcome.ret (l, none), h1)) :
    NewClientWithDNS.dialContext env dnsAddr domain ctx network addr h
      = (Outcome.panic "index out of range [0] with length 0", h1) := by
  cases l with
  | none => simp [NewClientWithDNS.dialContext, hR, Slice.index]
  | some xs =>
    cases xs with
    | nil => simp [NewClientWithDNS.dialContext, hR, Slice.index]
    | cons x rest => simp [Slice.len] at hl

theorem dialContext_history (env : Env) (dnsAddr domain : String)
    (ctx : Context) (network addr : String) (h : List Event) :
    (ResolveIP env dnsAddr domain h).2
      <+: (NewClientWithDNS.dialContext env dnsAddr domain ctx network addr h).2 := by
  unfold NewClientWithDNS.dialContext
  split
  · next m h1 hR => simp [hR]
  · next l err h1 hR => simp [hR]
  · next addrs h1 hR =>
    split
    · simp [hR]
    · simp [hR]

theorem ioCopy_loop_eq (cs : List (List Nat)) (dst : Buffer) (n : Int) :
    ioCopy.loop cs dst n
      = ({ unread := dst.unread ++ cs.flatten }, n + (cs.flatten.length : Int)) := by
  induction cs generalizing dst n with
  | nil => simp [ioCopy.loop]
  | cons c cs ih =>
    simp only [ioCopy.loop, ih, Buffer.Write, List.flatten_cons, List.length_append,
      List.append_assoc, Nat.cast_add]
    rw [add_assoc]

theorem ioCopy_eq (b : ReadCloser) :
    ioCopy { unread := [] } b
      = (((b.bytes.length : Int), b.pending.2), { unread := b.bytes }, b.drained) := by
  simp [ioCopy, ioCopy_loop_eq, ReadCloser.bytes]

theorem copyErr_eq (b : ReadCloser) : copyErr b = b.pending.2 := by
  simp [copyErr, ioCopy_eq]

theorem Do_clientDo_err (env : Env) (client : Option Client) (req : Request)
    (resp : Option HttpResponse) (err : GoError)
    (hDo : env.ClientDo (Do.client client) req = (resp, some err)) :
    Do env client req
      = { out := Outcome.ret (none, some err), body := resp.map HttpResponse.Body } := by
  cases client <;> simp_all [Do, Do.client, DefaultClient]

theorem Do_copy_err (env : Env) (client : Option Client) (req : Request)
    (resp : HttpResponse) (err : GoError)
    (hDo : env.ClientDo (Do.client client) req = (some resp, none))
    (hCopy : copyErr resp.Body = some err) :
    Do env client req
      = { out := Outcome.ret (none, some err), body := some resp.Body.drained.Close } := by
  rw [copyErr_eq] at hCopy
  cases client <;> simp_all [Do, Do.client, DefaultClient, ioCopy_eq]

theorem Do_ok (env : Env) (client : Option Client) (req : Request) (resp : HttpResponse)
    (hDo : env.ClientDo (Do.client client) req = (some resp, none))
    (hCopy : copyErr resp.Body = none) :
    Do env client req
      = { out := Outcome.ret
            (some { toHttpResponse :=
              { resp with ContentLength := (resp.Body.bytes.length : Int),
                          Body := ReadCloser.NopCloser { unread := resp.Body.bytes } } }, none),
          body := some resp.Body.drained.Close } := by
  rw [copyErr_eq] at hCopy
  cases client <;> simp_all [Do, Do.client, DefaultClient, ioCopy_eq]

theorem Do_nil_nil (env : Env) (client : Option Client) (req : Request)
    (hDo : env.ClientDo (Do.client client) req = (none, none)) :
    Do env client req
      = { out := Outcome.panic "invalid memory address or nil pointer dereference",
          body := none } := by
  cases client <;> simp_all [Do, Do.client, DefaultClient]

/-- Every way `Do` returns a response: `client.Do` gave a response and no
error, the copy of its body gave no error, and the response returned is that
one with the buffered body and its length. -/
theorem Do_ret_some (env : Env) (client : Option Client) (req : Request) (r : Response)
    (e : Option GoError) (hOut : (Do env client req).out = Outcome.ret (some r, e)) :
    ∃ resp : HttpResponse,
      env.ClientDo (Do.client client) req = (some resp, none) ∧ copyErr resp.Body = none
      ∧ e = none
      ∧ r = { toHttpResponse :=
              { resp with ContentLength := (resp.Body.bytes.length : Int),
                          Body := ReadCloser.NopCloser { unread := resp.Body.bytes } } } := by
  rcases hC : env.ClientDo (Do.client client) req with ⟨resp, err⟩
  cases err with
  | some err =>
    rw [Do_clientDo_err env client req resp err hC] at hOut
    simp at hOut
  | none =>
    cases resp with
    | none =>
      rw [Do_nil_nil env client req hC] at hOut
      simp at hOut
    | some resp =>
      cases hE : copyErr resp.Body with
      | some err =>
        rw [Do_copy_err env client req resp err hC hE] at hOut
        simp at hOut
      | none =>
        rw [Do_ok env client req resp hC hE] at hOut
        simp only [Outcome.ret.injEq, Prod.mk.injEq, Option.some.injEq] at hOut
        exact ⟨resp, rfl, hE, hOut.2.symm, hOut.1.symm⟩

theorem Bytes_NopCloser (r : Response) (b : List Nat)
    (hB : r.Body = ReadCloser.NopCloser { unread := b }) :
    r.Bytes = ((b, none), { r with Body := ReadCloser.NopCloser { unread := [] } }) := by
  simp [Response.Bytes, ioReadAll, hB, ReadCloser.pending, ReadCloser.drained, ReadCloser.Close]

theorem afterBytes_NopCloser (k : Nat) (r : Response) (b : List Nat)
    (hB : r.Body = ReadCloser.NopCloser { unread := b }) :
    (Response.afterBytes (k + 1) r).Body = ReadCloser.NopCloser { unread := [] } := by
  induction k generalizing r b with
  | zero => simp [Response.afterBytes, Bytes_NopCloser r b hB]
  | succ k ih =>
    rw [Response.afterBytes]
    exact ih _ [] (by simp [Bytes_NopCloser r b hB])

theorem SetCustomDNS_dialContext (dnsAddr : String) (s : State) :
    (SetCustomDNS dnsAddr s).dialContext = SetCustomDNS.installed dnsAddr := by
  by_cases hA : dnsAddr = "" <;> simp [SetCustomDNS, SetCustomDNS.installed, hA, Second]

theorem SetCustomDNS_transports (dnsAddr : String) (s : State) :
    (SetCustomDNS dnsAddr s).transports
      = s.transports
        ++ [{ DialContext := some (SetCustomDNS.installed dnsAddr), DisableKeepAlives := true }] := by
  by_cases hA : dnsAddr = "" <;> simp [SetCustomDNS, SetCustomDNS.installed, hA, Second]

theorem SetCustomDNS_defaultTransport (dnsAddr : String) (s : State) :
    (SetCustomDNS dnsAddr s).defaultTransport = s.transports.length := by
  by_cases hA : dnsAddr = "" <;> simp [SetCustomDNS, hA]

theorem SetCustomDNS_deref_default (dnsAddr : String) (s : State) :
    (SetCustomDNS dnsAddr s).deref (SetCustomDNS dnsAddr s).defaultTransport
      = some { DialContext := some (SetCustomDNS.installed dnsAddr), DisableKeepAlives := true } := by
  simp [State.deref, SetCustomDNS_transports, SetCustomDNS_defaultTransport]

theorem SetCustomDNS_deref_old (dnsAddr : String) (s : State) (p : Nat)
    (hp : (s.deref p).isSome = true) : (SetCustomDNS dnsAddr s).deref p = s.deref p := by
  have hlt : p < s.transports.length := by
    by_contra hge
    have : s.deref p = none := by
      simp only [State.deref, List.get?_eq_getElem?]
      exact List.getElem?_eq_none (by omega)
    rw [this] at hp
    simp at hp
  simp only [State.deref, SetCustomDNS_transports, List.get?_eq_getElem?]
  exact List.getElem?_append_left hlt

theorem run_snoc (calls : List String) (dnsAddr : String) (s : State) :
    SetCustomDNS.run (calls ++ [dnsAddr]) s = SetCustomDNS dnsAddr (SetCustomDNS.run calls s) := by
  simp [SetCustomDNS.run, List.foldl_append]

theorem run_deref_old (calls : List String) (s : State) (p : Nat)
    (hp : (s.deref p).isSome = true) : (SetCustomDNS.run calls s).deref p = s.deref p := by
  induction calls generalizing s with
  | nil => rfl
  | cons a rest ih =>
    have h1 : (SetCustomDNS a s).deref p = s.deref p := SetCustomDNS_deref_old a s p hp
    have h2 := ih (SetCustomDNS a s) (by rw [h1]; exact hp)
    simp only [SetCustomDNS.run, List.foldl_cons] at h2 ⊢
    rw [h2, h1]

theorem run_init_default_allocated (calls : List String) :
    ((SetCustomDNS.run calls State.init).deref
      (SetCustomDNS.run calls State.init).defaultTransport).isSome = true := by
  rcases List.eq_nil_or_concat calls with hnil | ⟨front, a, hc⟩
  · subst hnil
    rfl
  · subst hc
    rw [List.concat_eq_append, run_snoc, SetCustomDNS_deref_default]
    rfl

/-! ## ResolveIP -/

/-- C3, as stated, fails at an empty `dnsAddr`: for the IP literal
`93.184.216.34` and `dnsAddr = ""`, `ResolveIP` does invoke the system
resolver. It still returns exactly `["93.184.216.34"]` with no error, but the
history after the call is not the history before it: it holds a `LookupHost`
call, and what `ResolveIP` returns is what that call returned. -/
theorem ResolveIP_literal_empty_dnsAddr_invokes_system_resolver :
    (Sample.env.ParseIP "93.184.216.34").isSome = true
    ∧ (ResolveIP Sample.env "" "93.184.216.34" []).1
        = Outcome.ret (some ["93.184.216.34"], none)
    ∧ (ResolveIP Sample.env "" "93.184.216.34" []).2
        = [Event.lookupHost ResolveIP.ctx "93.184.216.34"]
    ∧ (ResolveIP Sample.env "" "93.184.216.34" []).2 ≠ []
    ∧ (ResolveIP Sample.env "" "93.184.216.34" []).1
        = Outcome.ret (Sample.env.LookupHost [] ResolveIP.ctx "93.184.216.34") := by
  decide

/-- C3, amended: for a domain that is a valid IP literal and every `dnsAddr`,
empty or non-empty, `ResolveIP` returns exactly `[domain]` with no error and
never calls the DNS client. (1) For every non-empty `dnsAddr` it makes no call
at all, neither to the system resolver nor to the DNS client, and returns
`[domain]`. (2) For the empty `dnsAddr` it calls the system resolver exactly
once, never the DNS client, and returns what the system resolver returned.
(3) The system resolver of the standard library returns an IP literal as it
is, with no error (hypothesis of this part); then, for every `dnsAddr`, what
`ResolveIP` returns is exactly `[domain]` with no error. (4) For every
`dnsAddr`, every exchange in the history after the call was in the history
before it. -/
theorem ResolveIP_ip_literal (env : Env) (dnsAddr domain : String) (h : List Event)
    (hIP : (env.ParseIP domain).isSome = true) :
    (dnsAddr ≠ "" →
      ResolveIP env dnsAddr domain h = (Outcome.ret (some [domain], none), h))
    ∧ (dnsAddr = "" →
      ResolveIP env dnsAddr domain h
        = (Outcome.ret (env.LookupHost h ResolveIP.ctx domain),
            h ++ [Event.lookupHost ResolveIP.ctx domain]))
    ∧ (env.LookupHost h ResolveIP.ctx domain = (some [domain], none) →
      (ResolveIP env dnsAddr domain h).1 = Outcome.ret (some [domain], none))
    ∧ (∀ (ctx : Context) (m : Msg) (server : String),
      Event.exchange ctx m server ∈ (ResolveIP env dnsAddr domain h).2 →
      Event.exchange ctx m server ∈ h) := by
  by_cases hAddr : dnsAddr = ""
  · subst hAddr
    refine ⟨fun hne => absurd rfl hne, fun _ => ResolveIP_system env domain h, ?_, ?_⟩
    · intro hLib
      rw [ResolveIP_system, hLib]
    · intro ctx m server hmem
      rw [ResolveIP_system] at hmem
      simpa using hmem
  · have hlit := ResolveIP_literal env dnsAddr domain h hAddr hIP
    refine ⟨fun _ => hlit, fun he => absurd he hAddr, ?_, ?_⟩
    · intro _
      rw [hlit]
    · intro ctx m server hmem
      rw [hlit] at hmem
      exact hmem

/-- C3, amended, at `93.184.216.34`: with the server address `127.0.0.1:5353`
no call is made; with the empty server address the system resolver, which
returns the literal as it is, is called once; both return
`["93.184.216.34"]`. -/
theorem ResolveIP_ip_literal_witness :
    (Sample.env.ParseIP "93.184.216.34").isSome = true
    ∧ ResolveIP Sample.env "127.0.0.1:5353" "93.184.216.34" []
        = (Outcome.ret (some ["93.184.216.34"], none), [])
    ∧ Sample.env.LookupHost [] ResolveIP.ctx "93.184.216.34"
        = (some ["93.184.216.34"], none)
    ∧ (ResolveIP Sample.env "" "93.184.216.34" []).1
        = Outcome.ret (some ["93.184.216.34"], none) :=
  ⟨by decide,
    (ResolveIP_ip_literal Sample.env "127.0.0.1:5353" "93.184.216.34" [] (by decide)).1
      (by decide),
    by decide,
    (ResolveIP_ip_literal Sample.env "" "93.184.216.34" [] (by decide)).2.2.1 (by decide)⟩

/-- C4: for a non-empty `dnsAddr` and a domain that is not an IP literal, when
the DNS exchange succeeds with the message `inA`, `ResolveIP` returns, with no
error, the non-nil list of the address texts of the A-records of `inA.Answer`,
in their order in `inA.Answer`, every other record being skipped, after exactly
one exchange. An empty answer section gives the empty list with no error, and
an answer section of one A-record gives the one-element list of its text. -/
theorem ResolveIP_returns_A_records (env : Env) (dnsAddr domain : String) (h : List Event)
    (inA : Msg) (hAddr : dnsAddr ≠ "") (hIP : env.ParseIP domain = none)
    (hEx : env.ExchangeContext h ResolveIP.ctx (ResolveIP.messageA env domain) dnsAddr
      = (some inA, none)) :
    ResolveIP env dnsAddr domain h
        = (Outcome.ret (some (inA.Answer.filterMap (RR.addrText env)), none),
            h ++ [Event.exchange ResolveIP.ctx (ResolveIP.messageA env domain) dnsAddr])
    ∧ (inA.Answer = [] →
        (ResolveIP env dnsAddr domain h).1 = Outcome.ret (some [], none))
    ∧ (∀ name ttl a, inA.Answer = [RR.A name ttl a] →
        (ResolveIP env dnsAddr domain h).1 = Outcome.ret (some [env.IPString a], none)) := by
  have hres := ResolveIP_exchange_ok env dnsAddr domain h inA hAddr hIP hEx
  refine ⟨hres, ?_, ?_⟩
  · intro hnil
    rw [hres, hnil]
    rfl
  · intro name ttl a hone
    rw [hres, hone]
    rfl

/-- C4 at the sample server: it answers the query for `example.com` with the
one A-record `93.184.216.34`, and `ResolveIP` returns `["93.184.216.34"]`. -/
theorem ResolveIP_returns_A_records_witness :
    Sample.env.ExchangeContext [] ResolveIP.ctx (ResolveIP.messageA Sample.env "example.com")
        "127.0.0.1:5353"
      = (some { RecursionDesired := true
                Question := [{ Name := "example.com.", Qtype := 1, Qclass := 1 }]
                Answer := [RR.A "example.com." 300 [93, 184, 216, 34]] }, none)
    ∧ (ResolveIP Sample.env "127.0.0.1:5353" "example.com" []).1
        = Outcome.ret (some ["93.184.216.34"], none) :=
  ⟨by decide,
    (ResolveIP_returns_A_records Sample.env "127.0.0.1:5353" "example.com" []
      { RecursionDesired := true
        Question := [{ Name := "example.com.", Qtype := 1, Qclass := 1 }]
        Answer := [RR.A "example.com." 300 [93, 184, 216, 34]] }
      (by decide) (by decide) (by decide)).2.2 "example.com." 300 [93, 184, 216, 34] rfl⟩

/-- C8: when the resolution step fails, `ResolveIP` returns that error
unchanged after exactly one call of that step and no call of the other
resolver. (1) For the empty `dnsAddr`, if the system resolver returns the list
`l` and the error `err`, `ResolveIP` returns `(l, err)` and the only call made
is that lookup. (2) For a non-empty `dnsAddr` and a domain that is not an IP
literal, if the exchange returns the error `err` (with or without a message),
`ResolveIP` returns `(nil, err)` and the only call made is that exchange. -/
theorem ResolveIP_error_unchanged (env : Env) (dnsAddr domain : String) (h : List Event)
    (err : GoError) :
    (∀ l : Slice String, dnsAddr = "" →
      env.LookupHost h ResolveIP.ctx domain = (l, some err) →
      ResolveIP env dnsAddr domain h
        = (Outcome.ret (l, some err), h ++ [Event.lookupHost ResolveIP.ctx domain]))
    ∧ (∀ m : Option Msg, dnsAddr ≠ "" → env.ParseIP domain = none →
      env.ExchangeContext h ResolveIP.ctx (ResolveIP.messageA env domain) dnsAddr
        = (m, some err) →
      ResolveIP env dnsAddr domain h
        = (Outcome.ret (none, some err),
            h ++ [Event.exchange ResolveIP.ctx (ResolveIP.messageA env domain) dnsAddr])) := by
  constructor
  · intro l hAddr hLook
    subst hAddr
    rw [ResolveIP_system, hLook]
  · intro m hAddr hIP hEx
    exact ResolveIP_exchange_err env dnsAddr domain h m err hAddr hIP hEx

/-- C8 at the sample environment: the server `192.0.2.1:53` times out, and the
system resolver does not know `nowhere.invalid`. -/
theorem ResolveIP_error_unchanged_witness :
    (ResolveIP Sample.env "192.0.2.1:53" "example.com" []
        = (Outcome.ret (none, some { msg := "read udp 192.0.2.1:53: i/o timeout" }),
            [Event.exchange ResolveIP.ctx (ResolveIP.messageA Sample.env "example.com")
              "192.0.2.1:53"]))
    ∧ (ResolveIP Sample.env "" "nowhere.invalid" []
        = (Outcome.ret (none, some { msg := "lookup nowhere.invalid: no such host" }),
            [Event.lookupHost ResolveIP.ctx "nowhere.invalid"])) :=
  ⟨(ResolveIP_error_unchanged Sample.env "192.0.2.1:53" "example.com" []
      { msg := "read udp 192.0.2.1:53: i/o timeout" }).2 none (by decide) (by decide) (by decide),
   (ResolveIP_error_unchanged Sample.env "" "nowhere.invalid" []
      { msg := "lookup nowhere.invalid: no such host" }).1 none rfl (by decide)⟩

/-! ## NewClientWithDNS -/

/-- C5 fails on the code. The sample server `127.0.0.1:5353` answers the query
for `nothing.example` with an empty answer section, so `ResolveIP` returns the
empty list and no error; the dial function of the client built by
`NewClientWithDNS` then evaluates `addrs[0]` and panics with an index out of
range, instead of returning an error. -/
theorem NewClientWithDNS_dial_empty_list_panics :
    ResolveIP Sample.env "127.0.0.1:5353" "nothing.example" []
        = (Outcome.ret (some [], none),
            [Event.exchange ResolveIP.ctx (ResolveIP.messageA Sample.env "nothing.example")
              "127.0.0.1:5353"])
    ∧ Client.dial Sample.env
        (NewClientWithDNS "127.0.0.1:5353" "nothing.example" State.init).2
        (NewClientWithDNS "127.0.0.1:5353" "nothing.example" State.init).1
        Context.Background "tcp" "nothing.example:80" []
        = some (Outcome.panic "index out of range [0] with length 0",
            [Event.exchange ResolveIP.ctx (ResolveIP.messageA Sample.env "nothing.example")
              "127.0.0.1:5353"]) := by
  decide

/-- C6: the dial function of the client built by
`NewClientWithDNS(dnsAddr, domain)`, called with any `network` and `addr` after
any history `h`: (1) is the function literal of `NewClientWithDNS`; (2) does
the same whatever `addr` is; (3) runs `ResolveIP(dnsAddr, domain)` at the
history of that very call, so every dial resolves again; (4) when `ResolveIP`
returns a non-empty list and no error, dials exactly once, with the dialer of
5s timeout and 30s keep-alive, on `network`, to `JoinHostPort(a[0], "80")`,
and returns what that dial returns; (5) when `ResolveIP` returns an error,
returns that error and no connection, and dials nothing. -/
theorem NewClientWithDNS_dial_first_address (env : Env) (dnsAddr domain : String) (s : State)
    (ctx : Context) (network addr : String) (h : List Event) :
    Client.dial env (NewClientWithDNS dnsAddr domain s).2 (NewClientWithDNS dnsAddr domain s).1
        ctx network addr h
      = some (NewClientWithDNS.dialContext env dnsAddr domain ctx network addr h)
    ∧ (∀ addr2 : String,
        NewClientWithDNS.dialContext env dnsAddr domain ctx network addr2 h
          = NewClientWithDNS.dialContext env dnsAddr domain ctx network addr h)
    ∧ (ResolveIP env dnsAddr domain h).2
        <+: (NewClientWithDNS.dialContext env dnsAddr domain ctx network addr h).2
    ∧ (∀ (a0 : String) (rest : List String) (h1 : List Event),
        ResolveIP env dnsAddr domain h = (Outcome.ret (some (a0 :: rest), none), h1) →
        NewClientWithDNS.dialContext env dnsAddr domain ctx network addr h
          = (Outcome.ret (env.DialContext h1 NewClientWithDNS.dialer ctx network
                (JoinHostPort a0 "80")),
              h1 ++ [Event.dial NewClientWithDNS.dialer ctx network (JoinHostPort a0 "80")]))
    ∧ (∀ (l : Slice String) (err : GoError) (h1 : List Event),
        ResolveIP env dnsAddr domain h = (Outcome.ret (l, some err), h1) →
        NewClientWithDNS.dialContext env dnsAddr domain ctx network addr h
          = (Outcome.ret (none, some err), h1)) := by
  refine ⟨NewClientWithDNS_dial_eq env dnsAddr domain s ctx network addr h, ?_,
    dialContext_history env dnsAddr domain ctx network addr h, ?_, ?_⟩
  · intro addr2
    rfl
  · intro a0 rest h1 hR
    exact dialContext_of_addrs env dnsAddr domain ctx network addr h h1 a0 rest hR
  · intro l err h1 hR
    exact dialContext_of_err env dnsAddr domain ctx network addr h h1 l err hR

/-- C6 at the sample environment, whose server changes its answer for
`rotate.example` from call to call: a first dial, asked for
`example.org:443`, goes to `10.1.0.0:80`; a second dial, made after the two
calls of the first, resolves again and goes to `10.1.0.2:80`. -/
theorem NewClientWithDNS_dial_first_address_witness :
    ResolveIP Sample.env "127.0.0.1:5353" "rotate.example" []
        = (Outcome.ret (some ["10.1.0.0"], none), [Sample.rotateQuery])
    ∧ NewClientWithDNS.dialContext Sample.env "127.0.0.1:5353" "rotate.example"
        Context.Background "tcp" "example.org:443" []
        = (Outcome.ret (some { id := 1 }, none),
            [Sample.rotateQuery,
             Event.dial NewClientWithDNS.dialer Context.Background "tcp" "10.1.0.0:80"])
    ∧ NewClientWithDNS.dialContext Sample.env "127.0.0.1:5353" "rotate.example"
        Context.Background "tcp" "example.org:443"
        [Sample.rotateQuery,
         Event.dial NewClientWithDNS.dialer Context.Background "tcp" "10.1.0.0:80"]
        = (Outcome.ret (some { id := 3 }, none),
            [Sample.rotateQuery,
             Event.dial NewClientWithDNS.dialer Context.Background "tcp" "10.1.0.0:80",
             Sample.rotateQuery,
             Event.dial NewClientWithDNS.dialer Context.Background "tcp" "10.1.0.2:80"]) :=
  ⟨by decide,
   (NewClientWithDNS_dial_first_address Sample.env "127.0.0.1:5353" "rotate.example" State.init
      Context.Background "tcp" "example.org:443" []).2.2.2.1 "10.1.0.0" []
      [Sample.rotateQuery] (by decide),
   (NewClientWithDNS_dial_first_address Sample.env "127.0.0.1:5353" "rotate.example" State.init
      Context.Background "tcp" "example.org:443"
      [Sample.rotateQuery,
       Event.dial NewClientWithDNS.dialer Context.Background "tcp" "10.1.0.0:80"]).2.2.2.1
      "10.1.0.2" []
      [Sample.rotateQuery,
       Event.dial NewClientWithDNS.dialer Context.Background "tcp" "10.1.0.0:80",
       Sample.rotateQuery] (by decide)⟩

/-! ## Do and Bytes -/

/-- C1: (1) whenever `client.Do` returns a response and no error and copying
the body of that response returns no error, `Do` returns a response and no
error; (2) whenever `Do` returns a response `r`, `r.ContentLength` is the
exact number of bytes of the buffered `r.Body`, and `r.Body` is a `NopCloser`
over a buffer holding all the bytes the body of the response of `client.Do`
delivered, whatever `ContentLength` that response carried. -/
theorem Do_ContentLength_eq_buffered_length (env : Env) (client : Option Client)
    (req : Request) :
    (∀ resp : HttpResponse,
        env.ClientDo (Do.client client) req = (some resp, none) → copyErr resp.Body = none →
        ∃ r : Response, (Do env client req).out = Outcome.ret (some r, none))
    ∧ (∀ (r : Response) (e : Option GoError),
        (Do env client req).out = Outcome.ret (some r, e) →
        r.ContentLength = (r.Body.bytes.length : Int)
        ∧ ∃ resp : HttpResponse,
            env.ClientDo (Do.client client) req = (some resp, none)
            ∧ r.Body = ReadCloser.NopCloser { unread := resp.Body.bytes }
            ∧ r.Body.bytes = resp.Body.bytes) := by
  constructor
  · intro resp hDo hCopy
    exact ⟨_, by rw [Do_ok env client req resp hDo hCopy]⟩
  · intro r e hOut
    obtain ⟨resp, hDo, _, _, hr⟩ := Do_ret_some env client req r e hOut
    subst hr
    refine ⟨?_, resp, hDo, rfl, ?_⟩ <;> simp [ReadCloser.bytes, ReadCloser.pending]

/-- C1 at the sample client: `/hello` comes with `ContentLength` -1 and a body
of two chunks, 2 and 3 bytes; `Do` returns `ContentLength` 5. -/
theorem Do_ContentLength_eq_buffered_length_witness :
    (Do Sample.env none Sample.getHello).out = Outcome.ret (some Sample.hello, none)
    ∧ Sample.hello.ContentLength = (Sample.hello.Body.bytes.length : Int)
    ∧ Sample.hello.ContentLength = 5 :=
  ⟨by decide,
   ((Do_ContentLength_eq_buffered_length Sample.env none Sample.getHello).2
      Sample.hello none (by decide)).1, rfl⟩

/-- C2, as stated, fails: for the response `Do` returns for `/hello`, the first
call of `Bytes` returns the five bytes of the body, the second call returns
the empty byte sequence, not those five bytes. -/
theorem Bytes_second_call_empty :
    (Do Sample.env none Sample.getHello).out = Outcome.ret (some Sample.hello, none)
    ∧ Sample.hello.Bytes.1 = ([104, 101, 108, 108, 111], none)
    ∧ Sample.hello.Bytes.2.Bytes.1 = ([], none)
    ∧ Sample.hello.Bytes.2.Bytes.1 ≠ Sample.hello.Bytes.1 := by
  decide

/-- C2, amended: for every response `r` that `Do` returns, no call of
`Bytes` returns an error; the first call returns the full buffered body, whose
length is `r.ContentLength`; every later call returns the empty byte
sequence. -/
theorem Bytes_first_full_then_empty (env : Env) (client : Option Client) (req : Request)
    (r : Response) (hOut : (Do env client req).out = Outcome.ret (some r, none)) :
    r.Bytes.1 = (r.Body.bytes, none)
    ∧ r.ContentLength = (r.Body.bytes.length : Int)
    ∧ ∀ k : Nat, 0 < k → (Response.afterBytes k r).Bytes.1 = ([], none) := by
  obtain ⟨resp, _, _, _, hr⟩ := Do_ret_some env client req r none hOut
  have hB : r.Body = ReadCloser.NopCloser { unread := resp.Body.bytes } := by rw [hr]
  refine ⟨?_, ?_, ?_⟩
  · rw [Bytes_NopCloser r _ hB, hB]
    simp [ReadCloser.bytes, ReadCloser.pending]
  · rw [hr]
    simp [ReadCloser.bytes, ReadCloser.pending]
  · intro k hk
    obtain ⟨j, rfl⟩ : ∃ j, k = j + 1 := ⟨k - 1, by omega⟩
    rw [Bytes_NopCloser _ [] (afterBytes_NopCloser j r _ hB)]

/-- C2, amended, at the response for `/hello`: five bytes, then none, then
none. -/
theorem Bytes_first_full_then_empty_witness :
    (Do Sample.env none Sample.getHello).out = Outcome.ret (some Sample.hello, none)
    ∧ Sample.hello.Bytes.1 = ([104, 101, 108, 108, 111], none)
    ∧ (Response.afterBytes 1 Sample.hello).Bytes.1 = ([], none)
    ∧ (Response.afterBytes 2 Sample.hello).Bytes.1 = ([], none) :=
  ⟨by decide,
   (Bytes_first_full_then_empty Sample.env none Sample.getHello Sample.hello (by decide)).1,
   (Bytes_first_full_then_empty Sample.env none Sample.getHello Sample.hello (by decide)).2.2 1
      (by decide),
   (Bytes_first_full_then_empty Sample.env none Sample.getHello Sample.hello (by decide)).2.2 2
      (by decide)⟩

/-- C7: `Do` returns an error exactly when `client.Do` fails or reading the
body fails, and then returns that error unchanged with a nil response.
(1) If `client.Do` returns the error `err`, `Do` returns `(nil, err)`.
(2) If `client.Do` returns a response and no error and copying its body
returns the error `err`, `Do` returns `(nil, err)`: nothing of what was read
is returned. (3) If `client.Do` returns a response and no error and the copy
returns no error, `Do` returns a response and no error. (4) Whenever `Do`
returns an error `e`, its response is nil and `e` is the error of `client.Do`
or the error of the copy. -/
theorem Do_error_iff_underlying_error (env : Env) (client : Option Client) (req : Request) :
    (∀ (resp : Option HttpResponse) (err : GoError),
        env.ClientDo (Do.client client) req = (resp, some err) →
        (Do env client req).out = Outcome.ret (none, some err))
    ∧ (∀ (resp : HttpResponse) (err : GoError),
        env.ClientDo (Do.client client) req = (some resp, none) →
        copyErr resp.Body = some err →
        (Do env client req).out = Outcome.ret (none, some err))
    ∧ (∀ resp : HttpResponse,
        env.ClientDo (Do.client client) req = (some resp, none) →
        copyErr resp.Body = none →
        ∃ r : Response, (Do env client req).out = Outcome.ret (some r, none))
    ∧ (∀ (r : Option Response) (e : GoError),
        (Do env client req).out = Outcome.ret (r, some e) →
        r = none
        ∧ ((env.ClientDo (Do.client client) req).2 = some e
          ∨ ∃ resp : HttpResponse,
              env.ClientDo (Do.client client) req = (some resp, none)
              ∧ copyErr resp.Body = some e)) := by
  refine ⟨?_, ?_, ?_, ?_⟩
  · intro resp err hDo
    rw [Do_clientDo_err env client req resp err hDo]
  · intro resp err hDo hCopy
    rw [Do_copy_err env client req resp err hDo hCopy]
  · intro resp hDo hCopy
    exact ⟨_, by rw [Do_ok env client req resp hDo hCopy]⟩
  · intro r e hOut
    rcases hC : env.ClientDo (Do.client client) req with ⟨resp, err⟩
    cases err with
    | some err =>
      rw [Do_clientDo_err env client req resp err hC] at hOut
      simp only [Outcome.ret.injEq, Prod.mk.injEq, Option.some.injEq] at hOut
      exact ⟨hOut.1.symm, Or.inl (by rw [hOut.2])⟩
    | none =>
      cases resp with
      | none =>
        rw [Do_nil_nil env client req hC] at hOut
        simp at hOut
      | some resp =>
        cases hE : copyErr resp.Body with
        | some err =>
          rw [Do_copy_err env client req resp err hC hE] at hOut
          simp only [Outcome.ret.injEq, Prod.mk.injEq, Option.some.injEq] at hOut
          exact ⟨hOut.1.symm, Or.inr ⟨resp, rfl, by rw [hE, hOut.2]⟩⟩
        | none =>
          rw [Do_ok env client req resp hC hE] at hOut
          simp at hOut

/-- C7 at the sample client: the body of `/broken` fails after two bytes with
`unexpected EOF`, and `Do` returns that error and a nil response; `/gone`
cannot be reached, and `Do` returns the error of `client.Do`. -/
theorem Do_error_iff_underlying_error_witness :
    (Do Sample.env none Sample.getBroken).out
        = Outcome.ret (none, some { msg := "unexpected EOF" })
    ∧ (Do Sample.env none { Method := "GET", URL := "http://example.com/gone" }).out
        = Outcome.ret (none, some { msg := "dial tcp: connection refused" }) :=
  ⟨(Do_error_iff_underlying_error Sample.env none Sample.getBroken).2.1
      { StatusCode := 200, Header := [], ContentLength := 5,
        Body := ReadCloser.stream
          { chunks := [[104, 101]], fail := some { msg := "unexpected EOF" }, closed := false } }
      { msg := "unexpected EOF" } (by decide) (by decide),
   (Do_error_iff_underlying_error Sample.env none
      { Method := "GET", URL := "http://example.com/gone" }).1 none
      { msg := "dial tcp: connection refused" } (by decide)⟩

/-- C9: whenever `client.Do` returns a response whose body is the stream `s`,
that stream is closed when `Do` returns. With no error from `client.Do`, `Do`
itself closes it, whether the copy succeeds or fails, and has read it to its
end. With an error from `client.Do`, `Do` leaves the stream as it got it, and
the standard library gives a response together with an error only with its
body already closed (hypothesis `hLib`). Whenever `Do` returns a response, its
buffered body holds all the bytes of `s`, and `s` ended without error. -/
theorem Do_closes_original_body (env : Env) (client : Option Client) (req : Request)
    (resp : HttpResponse) (err : Option GoError) (s : Stream)
    (hDo : env.ClientDo (Do.client client) req = (some resp, err))
    (hBody : resp.Body = ReadCloser.stream s)
    (hLib : err ≠ none → s.closed = true) :
    (∃ s1 : Stream, (Do env client req).body = some (ReadCloser.stream s1)
        ∧ s1.closed = true
        ∧ (err = none → s1 = { chunks := [], fail := s.fail, closed := true }))
    ∧ (∀ (r : Response) (e : Option GoError),
        (Do env client req).out = Outcome.ret (some r, e) →
        r.Body = ReadCloser.NopCloser { unread := s.chunks.flatten } ∧ s.fail = none
        ∧ (Do env client req).body
            = some (ReadCloser.stream { chunks := [], fail := none, closed := true })) := by
  have hbytes : resp.Body.bytes = s.chunks.flatten := by
    simp [hBody, ReadCloser.bytes, ReadCloser.pending]
  have hclose : resp.Body.drained.Close
      = ReadCloser.stream { chunks := [], fail := s.fail, closed := true } := by
    simp [hBody, ReadCloser.drained, ReadCloser.Close]
  have hfail : copyErr resp.Body = s.fail := by
    simp [copyErr_eq, hBody, ReadCloser.pending]
  constructor
  · cases err with
    | some err0 =>
      refine ⟨s, ?_, hLib (by simp), by simp⟩
      rw [Do_clientDo_err env client req (some resp) err0 hDo]
      simp [hBody]
    | none =>
      refine ⟨{ chunks := [], fail := s.fail, closed := true }, ?_, rfl, fun _ => rfl⟩
      cases hE : copyErr resp.Body with
      | some e0 => rw [Do_copy_err env client req resp e0 hDo hE, hclose]
      | none => rw [Do_ok env client req resp hDo hE, hclose]
  · intro r e hOut
    obtain ⟨resp2, hDo2, hE, _, hr⟩ := Do_ret_some env client req r e hOut
    rw [hDo] at hDo2
    simp only [Prod.mk.injEq, Option.some.injEq] at hDo2
    obtain ⟨h1, h2⟩ := hDo2
    subst h1
    subst h2
    rw [hfail] at hE
    refine ⟨by rw [hr, hbytes], hE, ?_⟩
    rw [Do_ok env client req resp hDo (by rw [hfail, hE]), hclose, hE]

/-- C9 at the sample client: the body stream of `/broken`, open when
`client.Do` returns it, is closed when `Do` returns its read error. -/
theorem Do_closes_original_body_witness :
    (Do Sample.env none Sample.getBroken).out
        = Outcome.ret (none, some { msg := "unexpected EOF" })
    ∧ ∃ s1 : Stream, (Do Sample.env none Sample.getBroken).body = some (ReadCloser.stream s1)
        ∧ s1.closed = true
        ∧ ((none : Option GoError) = none →
            s1 = { chunks := [], fail := some { msg := "unexpected EOF" }, closed := true }) :=
  ⟨by decide,
   (Do_closes_original_body Sample.env none Sample.getBroken
      { StatusCode := 200, Header := [], ContentLength := 5,
        Body := ReadCloser.stream
          { chunks := [[104, 101]], fail := some { msg := "unexpected EOF" }, closed := false } }
      none { chunks := [[104, 101]], fail := some { msg := "unexpected EOF" }, closed := false }
      (by decide) rfl (by simp)).1⟩

/-! ## SetCustomDNS and NewClient -/

/-- C10: let `s0` be the state after any calls `before` of `SetCustomDNS` from
the initial state, and `s1` the state after the further calls `calls` and then
`SetCustomDNS(dnsAddr)`. (1) `NewClient` at `s1` returns a client with a 5s
timeout whose transport is the one the last call installed: persistent
connections disabled, dialing with the dial function of `dnsAddr`, which is
also the package-level `dialContext`. (2) If `dnsAddr` is empty, that dial
function and that transport equal the initial ones. (3) Otherwise the dial
function is a dialer with a 5s timeout and a 30s keep-alive whose resolver
prefers the Go resolver and dials `dnsAddr` whatever address it is asked for.
(4) Every transport allocated at `s0`, that of a client built by `NewClient`
at `s0` in particular, is unchanged at `s1`. -/
theorem SetCustomDNS_last_call_wins (before calls : List String) (dnsAddr : String)
    (s0 s1 : State) (h0 : s0 = SetCustomDNS.run before State.init)
    (h1 : s1 = SetCustomDNS.run (calls ++ [dnsAddr]) s0) :
    (NewClient s1 = { Transport := some s1.defaultTransport, Timeout := 5000000000 }
      ∧ s1.deref s1.defaultTransport
          = some { DialContext := some (SetCustomDNS.installed dnsAddr),
                   DisableKeepAlives := true }
      ∧ s1.dialContext = SetCustomDNS.installed dnsAddr)
    ∧ (dnsAddr = "" →
        s1.dialContext = State.init.dialContext
        ∧ s1.deref s1.defaultTransport = State.init.deref State.init.defaultTransport)
    ∧ (dnsAddr ≠ "" →
        s1.dialContext
          = DialFunc.method
              { Timeout := 5000000000, KeepAlive := 30000000000,
                Resolver := some { PreferGo := true,
                                   Dial := some (ResolverDial.SetCustomDNS_func1 dnsAddr) } }
        ∧ ∀ (env : Env) (ctx : Context) (network address : String) (h : List Event),
            (ResolverDial.SetCustomDNS_func1 dnsAddr).call env ctx network address h
              = (env.DialContext h { Timeout := 5000000000, KeepAlive := 0, Resolver := none }
                    ctx network dnsAddr,
                  h ++ [Event.dial { Timeout := 5000000000, KeepAlive := 0, Resolver := none }
                    ctx network dnsAddr]))
    ∧ ((NewClient s0).Transport = some s0.defaultTransport
        ∧ (s0.deref s0.defaultTransport).isSome = true
        ∧ s1.deref s0.defaultTransport = s0.deref s0.defaultTransport
        ∧ ∀ p : Nat, (s0.deref p).isSome = true → s1.deref p = s0.deref p) := by
  subst h1
  have hdc : (SetCustomDNS.run (calls ++ [dnsAddr]) s0).dialContext
      = SetCustomDNS.installed dnsAddr := by
    rw [run_snoc, SetCustomDNS_dialContext]
  have hdt : (SetCustomDNS.run (calls ++ [dnsAddr]) s0).deref
      (SetCustomDNS.run (calls ++ [dnsAddr]) s0).defaultTransport
      = some { DialContext := some (SetCustomDNS.installed dnsAddr),
               DisableKeepAlives := true } := by
    rw [run_snoc, SetCustomDNS_deref_default]
  have halloc : (s0.deref s0.defaultTransport).isSome = true := by
    rw [h0]
    exact run_init_default_allocated before
  refine ⟨⟨?_, hdt, hdc⟩, ?_, ?_, rfl, halloc, ?_, ?_⟩
  · simp [NewClient, Second]
  · intro hA
    rw [hdc, hdt, hA]
    exact ⟨rfl, rfl⟩
  · intro hA
    refine ⟨?_, ?_⟩
    · rw [hdc]
      simp [SetCustomDNS.installed, hA]
    · intro env ctx network address h
      simp [ResolverDial.call, SetCustomDNS.dial, Second]
  · exact run_deref_old _ s0 _ halloc
  · intro p hp
    exact run_deref_old _ s0 p hp

/-- C10 at the calls `SetCustomDNS("8.8.8.8:53")`, then `SetCustomDNS("")`,
then `SetCustomDNS("1.1.1.1:53")`: a client built after the first call keeps
the transport resolving through `8.8.8.8:53`, a client built after the last
call has the transport resolving through `1.1.1.1:53`. -/
theorem SetCustomDNS_last_call_wins_witness :
    (SetCustomDNS.run ["8.8.8.8:53", "", "1.1.1.1:53"] State.init).deref 1
        = some { DialContext := some (SetCustomDNS.installed "8.8.8.8:53"),
                 DisableKeepAlives := true }
    ∧ NewClient (SetCustomDNS.run ["8.8.8.8:53", "", "1.1.1.1:53"] State.init)
        = { Transport := some 3, Timeout := 5000000000 }
    ∧ (SetCustomDNS.run ["8.8.8.8:53", "", "1.1.1.1:53"] State.init).deref 3
        = some { DialContext := some (SetCustomDNS.installed "1.1.1.1:53"),
                 DisableKeepAlives := true } :=
  ⟨by decide,
   (SetCustomDNS_last_call_wins ["8.8.8.8:53"] [""] "1.1.1.1:53"
      (SetCustomDNS.run ["8.8.8.8:53"] State.init)
      (SetCustomDNS.run ["8.8.8.8:53", "", "1.1.1.1:53"] State.init) rfl rfl).1.1,
   (SetCustomDNS_last_call_wins ["8.8.8.8:53"] [""] "1.1.1.1:53"
      (SetCustomDNS.run ["8.8.8.8:53"] State.init)
      (SetCustomDNS.run ["8.8.8.8:53", "", "1.1.1.1:53"] State.init) rfl rfl).1.2.1⟩

end simplehttp
